import Mathlib

/-!
# Verification of the categorical scatter-plot example pipeline

The repository consists of the example script
`examples/gallery/plot/points-categorical.py`, which orchestrates calls into
the pygmt plotting library: it loads the penguins dataset, computes a plot
region with `pygmt.info`, builds a categorical colormap with `pygmt.makecpt`,
plots symbols with `Figure.plot`, and renders with `Figure.show`.  The bodies
of those library operations are not part of the repository source tree, so
each is modelled here from the specification's contract for it, over exact
rational arithmetic.
-/

namespace PyGMT

/-- The largest multiple of `s` that does not exceed `q` (rounding a lower
bound down to the granularity `s`). -/
def floorMult (s q : ℚ) : ℚ := s * ⌊q / s⌋

/-- The smallest multiple of `s` that is not less than `q` (rounding an upper
bound up to the granularity `s`). -/
def ceilMult (s q : ℚ) : ℚ := s * ⌈q / s⌉

/-- `m` is an integer multiple of the granularity `s`. -/
def IsMult (s m : ℚ) : Prop := ∃ k : ℤ, m = s * k

/-- Minimum of the nonempty list `x :: xs`. -/
def listMin (x : ℚ) (xs : List ℚ) : ℚ := xs.foldl min x

/-- Maximum of the nonempty list `x :: xs`. -/
def listMax (x : ℚ) (xs : List ℚ) : ℚ := xs.foldl max x

/-- Modelled from the spec: the body of `pygmt.info` is not in the repository
source tree.  `info xs ys sx sy` models
`pygmt.info(table, per_column=True, spacing=(sx, sy))` on a two-column table:
it returns `(xmin, xmax, ymin, ymax)` where each column minimum is rounded
down and each column maximum rounded up to the nearest multiple of the
per-axis spacing; it has no result on an empty column. -/
def info (xs ys : List ℚ) (sx sy : ℚ) : Option (ℚ × ℚ × ℚ × ℚ) :=
  match xs, ys with
  | x :: xs', y :: ys' =>
      some (floorMult sx (listMin x xs'), ceilMult sx (listMax x xs'),
            floorMult sy (listMin y ys'), ceilMult sy (listMax y ys'))
  | _, _ => none

/-- An RGB color with exact rational channels. -/
structure RGB where
  r : ℚ
  g : ℚ
  b : ℚ
deriving DecidableEq

/-- Modelled from the spec: the named palettes live in the external plotting
library, not in the repository source tree.  A palette is modelled by its two
anchor colors; `"inferno"` runs from near-black `(0, 0, 4)` to bright
`(252, 255, 164)`, any other name defaults to a grayscale ramp. -/
def paletteAnchors (cmap : String) : RGB × RGB :=
  if cmap = "inferno" then (⟨0, 0, 4⟩, ⟨252, 255, 164⟩)
  else (⟨0, 0, 0⟩, ⟨255, 255, 255⟩)

/-- Modelled from the spec: discrete sampling of a named palette (the palette
data is not in the repository source tree).  Bin `i` of `n` receives the
color obtained by linear interpolation between the palette's anchor colors at
parameter `i / n`, so the sampling is a pure function of the palette name and
the bin position. -/
def paletteColor (cmap : String) (n i : ℕ) : RGB :=
  let c0 := (paletteAnchors cmap).1
  let c1 := (paletteAnchors cmap).2
  ⟨c0.r + (c1.r - c0.r) * i / n,
   c0.g + (c1.g - c0.g) * i / n,
   c0.b + (c1.b - c0.b) * i / n⟩

/-- One discrete slice of a categorical colormap: the half-open value range
`[lo, hi)` it covers, its integer index, and its color. -/
structure CptSlice where
  lo : ℚ
  hi : ℚ
  colorIndex : ℕ
  color : RGB
deriving DecidableEq

/-- The number of discrete slices generated for a series
`(start, stop, step)`: `⌈(stop - start) / step⌉`. -/
def nSlices (start stop step : ℚ) : ℕ := (⌈(stop - start) / step⌉).toNat

/-- Modelled from the spec: the body of `pygmt.makecpt` is not in the
repository source tree.  `makecpt cmap start stop step` models
`pygmt.makecpt(cmap=cmap, color_model="+c", series=(start, stop, step))`: it
fails if `stop ≤ start` or `step ≤ 0`, and otherwise produces one discrete
color slice per step of the series, each covering `[start + i*step,
start + (i+1)*step)` with color index `i` and a palette color for bin `i`. -/
def makecpt (cmap : String) (start stop step : ℚ) :
    Except String (List CptSlice) :=
  if stop ≤ start ∨ step ≤ 0 then
    Except.error "makecpt: series stop must exceed start and step must be positive"
  else
    Except.ok ((List.range (nSlices start stop step)).map fun i : ℕ =>
      ⟨start + (i : ℚ) * step, start + ((i : ℚ) + 1) * step, i,
        paletteColor cmap (nSlices start stop step) i⟩)

/-- The color a colormap assigns to a numeric value: the color of the first
slice whose half-open range `[lo, hi)` contains the value. -/
def colorForCode : List CptSlice → ℚ → Option RGB
  | [], _ => none
  | s :: rest, z =>
      if s.lo ≤ z ∧ z < s.hi then some s.color else colorForCode rest z

/-- One plotted symbol: position, size and the numeric code used to look its
color up in the active colormap. -/
structure Symbol where
  x : ℚ
  y : ℚ
  size : ℚ
  colorCode : ℚ
deriving DecidableEq

/-- Modelled from the spec: the body of `pygmt.Figure.plot` is not in the
repository source tree.  `plot x y sizes color` models the shape check of
`fig.plot(x=…, y=…, sizes=…, color=…)`: if the four parallel sequences do not
all have the same length it fails with a shape-mismatch error and draws
nothing, otherwise it produces one symbol per row. -/
def plot (x y sizes color : List ℚ) : Except String (List Symbol) :=
  if x.length = y.length ∧ x.length = sizes.length ∧ x.length = color.length
  then
    Except.ok (((x.zip y).zip (sizes.zip color)).map fun p =>
      ⟨p.1.1, p.1.2, p.2.1, p.2.2⟩)
  else
    Except.error "plot: x, y, sizes and color must have the same length"

/-- A drawing operation accumulated by a figure session. -/
inductive DrawOp
  | basemap (xmin xmax ymin ymax : ℚ)
  | plotSymbols (symbols : List Symbol)
deriving DecidableEq

/-- A figure session: the ordered log of drawing operations issued so far. -/
structure Figure where
  ops : List DrawOp
deriving DecidableEq

/-- The rendered output artifact, summarized by the operations it renders. -/
structure Artifact where
  rendered : List DrawOp
deriving DecidableEq

/-- Modelled from the spec: the body of `pygmt.Figure.show` is not in the
repository source tree.  Finalizing a session with zero accumulated drawing
operations fails with an empty-canvas error and produces no artifact;
otherwise it renders the accumulated operations. -/
def Figure.show' (f : Figure) : Except String Artifact :=
  if f.ops.isEmpty then
    Except.error "show: cannot finalize an empty figure session"
  else Except.ok ⟨f.ops⟩

/-- The lifecycle states of a figure session. -/
inductive SessionState
  | created
  | accumulating
  | finalized
  | closed
deriving DecidableEq

/-- The events a figure session reacts to: a drawing call (basemap/plot), a
finalizing call (show/save), and disposal of the session. -/
inductive SessionEvent
  | draw
  | finalize
  | close
deriving DecidableEq

/-- Modelled from the spec: the session lifecycle is enforced by the external
library, whose body is not in the repository source tree.  The state machine
is Created → Accumulating (any number of draws) → Finalized (show/save) →
Closed; finalizing with zero prior draws is rejected, and nothing is accepted
in a state without a listed transition. -/
def sessionStep : SessionState → SessionEvent → Option SessionState
  | .created, .draw => some .accumulating
  | .accumulating, .draw => some .accumulating
  | .accumulating, .finalize => some .finalized
  | .finalized, .close => some .closed
  | _, _ => none

/-- Run a figure session from the `created` state through a list of events;
`none` means some event was rejected. -/
def sessionRun (events : List SessionEvent) : Option SessionState :=
  events.foldl (fun s e => s.bind fun st => sessionStep st e)
    (some SessionState.created)

/-- Modelled from the spec: the categorical dtype conversion
(`df.species.astype("category")`) is performed by the external tabular
library, not by repository source code.  The category list of a column is its
list of distinct values. -/
def categories (col : List String) : List String := col.dedup

/-- Modelled from the spec: the integer codes of a categorical column
(`df.species.cat.codes`), assigned by the external tabular library.  Each
value is encoded by the position of its category in the category list. -/
def codes (col : List String) : List ℕ :=
  col.map fun v => (categories col).indexOf v

end PyGMT

namespace PyGMT

lemma listMin_le_init (x : ℚ) (xs : List ℚ) : listMin x xs ≤ x := by
  induction xs generalizing x with
  | nil => exact le_refl x
  | cons a as ih =>
      calc listMin x (a :: as) = listMin (min x a) as := rfl
        _ ≤ min x a := ih (min x a)
        _ ≤ x := min_le_left x a

lemma listMin_le_mem (x : ℚ) (xs : List ℚ) (a : ℚ) (ha : a ∈ xs) :
    listMin x xs ≤ a := by
  induction xs generalizing x with
  | nil => cases ha
  | cons b bs ih =>
      rcases List.mem_cons.mp ha with h | h
      · rw [h] at ha ⊢
        calc listMin x (b :: bs) = listMin (min x b) bs := rfl
          _ ≤ min x b := listMin_le_init _ _
          _ ≤ b := min_le_right x b
      · exact ih (min x b) h

lemma init_le_listMax (x : ℚ) (xs : List ℚ) : x ≤ listMax x xs := by
  induction xs generalizing x with
  | nil => exact le_refl x
  | cons a as ih =>
      calc x ≤ max x a := le_max_left x a
        _ ≤ listMax (max x a) as := ih (max x a)
        _ = listMax x (a :: as) := rfl

lemma mem_le_listMax (x : ℚ) (xs : List ℚ) (a : ℚ) (ha : a ∈ xs) :
    a ≤ listMax x xs := by
  induction xs generalizing x with
  | nil => cases ha
  | cons b bs ih =>
      rcases List.mem_cons.mp ha with h | h
      · rw [h]
        calc b ≤ max x b := le_max_right x b
          _ ≤ listMax (max x b) bs := init_le_listMax _ _
          _ = listMax x (b :: bs) := rfl
      · exact ih (max x b) h

lemma listMin_le_listMax (x : ℚ) (xs : List ℚ) : listMin x xs ≤ listMax x xs :=
  le_trans (listMin_le_init x xs) (init_le_listMax x xs)

lemma floorMult_le (s q : ℚ) (hs : 0 < s) : floorMult s q ≤ q := by
  have h := Int.floor_le (q / s)
  calc s * (⌊q / s⌋ : ℚ) ≤ s * (q / s) := by
        exact mul_le_mul_of_nonneg_left h (le_of_lt hs)
    _ = q := by field_simp

lemma le_ceilMult (s q : ℚ) (hs : 0 < s) : q ≤ ceilMult s q := by
  have h := Int.le_ceil (q / s)
  calc q = s * (q / s) := by field_simp
    _ ≤ s * (⌈q / s⌉ : ℚ) := mul_le_mul_of_nonneg_left h (le_of_lt hs)

lemma floorMult_isMult (s q : ℚ) : IsMult s (floorMult s q) := ⟨⌊q / s⌋, rfl⟩

lemma ceilMult_isMult (s q : ℚ) : IsMult s (ceilMult s q) := ⟨⌈q / s⌉, rfl⟩

/-- Any multiple of `s` that is `≤ q` is `≤ floorMult s q`: the floor-multiple
is the largest such multiple. -/
lemma isMult_le_floorMult (s q m : ℚ) (hs : 0 < s) (hm : IsMult s m)
    (hle : m ≤ q) : m ≤ floorMult s q := by
  obtain ⟨k, rfl⟩ := hm
  have hk : (k : ℚ) ≤ q / s := by
    rw [le_div_iff₀ hs, mul_comm]
    exact hle
  have : k ≤ ⌊q / s⌋ := Int.le_floor.mpr hk
  calc s * (k : ℚ) ≤ s * (⌊q / s⌋ : ℚ) := by
        exact mul_le_mul_of_nonneg_left (by exact_mod_cast this) (le_of_lt hs)
    _ = floorMult s q := rfl

/-- Any multiple of `s` that is `≥ q` is `≥ ceilMult s q`: the ceil-multiple
is the smallest such multiple. -/
lemma ceilMult_le_isMult (s q m : ℚ) (hs : 0 < s) (hm : IsMult s m)
    (hle : q ≤ m) : ceilMult s q ≤ m := by
  obtain ⟨k, rfl⟩ := hm
  have hk : q / s ≤ (k : ℚ) := by
    rw [div_le_iff₀ hs, mul_comm]
    exact hle
  have : ⌈q / s⌉ ≤ k := Int.ceil_le.mpr hk
  calc ceilMult s q = s * (⌈q / s⌉ : ℚ) := rfl
    _ ≤ s * (k : ℚ) := by
        exact mul_le_mul_of_nonneg_left (by exact_mod_cast this) (le_of_lt hs)

lemma listMin_le_of_mem (x : ℚ) (xs : List ℚ) (a : ℚ) (ha : a ∈ x :: xs) :
    listMin x xs ≤ a := by
  rcases List.mem_cons.mp ha with h | h
  · rw [h]; exact listMin_le_init x xs
  · exact listMin_le_mem x xs a h

lemma le_listMax_of_mem (x : ℚ) (xs : List ℚ) (a : ℚ) (ha : a ∈ x :: xs) :
    a ≤ listMax x xs := by
  rcases List.mem_cons.mp ha with h | h
  · rw [h]; exact init_le_listMax x xs
  · exact mem_le_listMax x xs a h

end PyGMT

open PyGMT

lemma ceil_298_15 : (⌈(298 : ℚ) / 15⌉ : ℤ) = 20 := by
  rw [Int.ceil_eq_iff]
  norm_num

lemma ceil_43_4 : (⌈(43 : ℚ) / 4⌉ : ℤ) = 11 := by
  rw [Int.ceil_eq_iff]
  norm_num

lemma info_penguin_sample :
    info [(32.1 : ℚ), 59.6] [(13.1 : ℚ), 21.5] 3 2 = some (30, 60, 12, 22) := by
  norm_num [info, floorMult, ceilMult, listMin, listMax, min_def, max_def,
    ceil_298_15, ceil_43_4]

/-- C1: for every nonempty dataset and positive per-axis spacing, `info`
returns `(xmin, xmax, ymin, ymax)` with `xmin ≤ min(x-data)`,
`max(x-data) ≤ xmax`, `xmin` the largest multiple of `sx` not exceeding the
x-minimum and `xmax` the smallest multiple of `sx` not less than the
x-maximum, and symmetrically for the y column with spacing `sy`. -/
theorem info_region_rounds_outward (x y sx sy : ℚ) (xs ys : List ℚ)
    (hsx : 0 < sx) (hsy : 0 < sy) :
    ∃ xmin xmax ymin ymax,
      info (x :: xs) (y :: ys) sx sy = some (xmin, xmax, ymin, ymax) ∧
      xmin ≤ listMin x xs ∧ listMin x xs ≤ listMax x xs ∧
        listMax x xs ≤ xmax ∧
      IsMult sx xmin ∧ (∀ m, IsMult sx m → m ≤ listMin x xs → m ≤ xmin) ∧
      IsMult sx xmax ∧ (∀ m, IsMult sx m → listMax x xs ≤ m → xmax ≤ m) ∧
      ymin ≤ listMin y ys ∧ listMin y ys ≤ listMax y ys ∧
        listMax y ys ≤ ymax ∧
      IsMult sy ymin ∧ (∀ m, IsMult sy m → m ≤ listMin y ys → m ≤ ymin) ∧
      IsMult sy ymax ∧ (∀ m, IsMult sy m → listMax y ys ≤ m → ymax ≤ m) := by
  refine ⟨floorMult sx (listMin x xs), ceilMult sx (listMax x xs),
    floorMult sy (listMin y ys), ceilMult sy (listMax y ys), rfl,
    floorMult_le sx _ hsx, listMin_le_listMax x xs,
    le_ceilMult sx _ hsx, floorMult_isMult sx _,
    fun m hm hle => isMult_le_floorMult sx _ m hsx hm hle,
    ceilMult_isMult sx _,
    fun m hm hle => ceilMult_le_isMult sx _ m hsx hm hle,
    floorMult_le sy _ hsy, listMin_le_listMax y ys,
    le_ceilMult sy _ hsy, floorMult_isMult sy _,
    fun m hm hle => isMult_le_floorMult sy _ m hsy hm hle,
    ceilMult_isMult sy _,
    fun m hm hle => ceilMult_le_isMult sy _ m hsy hm hle⟩

/-- Witness for C1: at the concrete bill-length data spanning `[32.1, 59.6]`
with x-spacing 3 (and bill-depth data `[13.1, 21.5]` with y-spacing 2), the
theorem applies, and the region evaluates to `(30, 60, 12, 22)`, so
`xmin = 30` and `xmax = 60`. -/
theorem info_region_rounds_outward_witness :
    (∃ xmin xmax ymin ymax,
      info [(32.1 : ℚ), 59.6] [(13.1 : ℚ), 21.5] 3 2 =
          some (xmin, xmax, ymin, ymax) ∧
      xmin ≤ listMin 32.1 [59.6] ∧ listMin 32.1 [59.6] ≤ listMax 32.1 [59.6] ∧
        listMax 32.1 [59.6] ≤ xmax ∧
      IsMult 3 xmin ∧ (∀ m, IsMult 3 m → m ≤ listMin 32.1 [59.6] → m ≤ xmin) ∧
      IsMult 3 xmax ∧
        (∀ m, IsMult 3 m → listMax 32.1 [59.6] ≤ m → xmax ≤ m) ∧
      ymin ≤ listMin 13.1 [21.5] ∧ listMin 13.1 [21.5] ≤ listMax 13.1 [21.5] ∧
        listMax 13.1 [21.5] ≤ ymax ∧
      IsMult 2 ymin ∧ (∀ m, IsMult 2 m → m ≤ listMin 13.1 [21.5] → m ≤ ymin) ∧
      IsMult 2 ymax ∧
        (∀ m, IsMult 2 m → listMax 13.1 [21.5] ≤ m → ymax ≤ m)) ∧
    info [(32.1 : ℚ), 59.6] [(13.1 : ℚ), 21.5] 3 2 = some (30, 60, 12, 22) :=
  ⟨info_region_rounds_outward 32.1 13.1 3 2 [59.6] [21.5] (by norm_num)
    (by norm_num), info_penguin_sample⟩

/-- C5: every region returned by the region estimator satisfies
`xmin ≤ xmax` and `ymin ≤ ymax` after rounding. -/
theorem info_region_ordered (xs ys : List ℚ) (sx sy : ℚ)
    (xmin xmax ymin ymax : ℚ) (hsx : 0 < sx) (hsy : 0 < sy)
    (h : info xs ys sx sy = some (xmin, xmax, ymin, ymax)) :
    xmin ≤ xmax ∧ ymin ≤ ymax := by
  match xs, ys, h with
  | x :: xs', y :: ys', h =>
    simp only [info, Option.some.injEq, Prod.mk.injEq] at h
    obtain ⟨h1, h2, h3, h4⟩ := h
    subst h1; subst h2; subst h3; subst h4
    constructor
    · calc floorMult sx (listMin x xs') ≤ listMin x xs' :=
            floorMult_le sx _ hsx
        _ ≤ listMax x xs' := listMin_le_listMax x xs'
        _ ≤ ceilMult sx (listMax x xs') := le_ceilMult sx _ hsx
    · calc floorMult sy (listMin y ys') ≤ listMin y ys' :=
            floorMult_le sy _ hsy
        _ ≤ listMax y ys' := listMin_le_listMax y ys'
        _ ≤ ceilMult sy (listMax y ys') := le_ceilMult sy _ hsy

/-- Witness for C5: at the concrete penguin sample data the theorem applies,
giving `30 ≤ 60` and `12 ≤ 22`. -/
theorem info_region_ordered_witness : (30 : ℚ) ≤ 60 ∧ (12 : ℚ) ≤ 22 :=
  info_region_ordered [(32.1 : ℚ), 59.6] [(13.1 : ℚ), 21.5] 3 2 30 60 12 22
    (by norm_num) (by norm_num) info_penguin_sample

/-- C10: every data point passed to the plot call lies inside the region
computed by `info` from the same two columns: if `v` is an x-value and `w` a
y-value of the dataset, then `xmin ≤ v ≤ xmax` and `ymin ≤ w ≤ ymax`. -/
theorem plotted_points_inside_region (xs ys : List ℚ) (sx sy v w : ℚ)
    (xmin xmax ymin ymax : ℚ) (hsx : 0 < sx) (hsy : 0 < sy)
    (hv : v ∈ xs) (hw : w ∈ ys)
    (h : info xs ys sx sy = some (xmin, xmax, ymin, ymax)) :
    xmin ≤ v ∧ v ≤ xmax ∧ ymin ≤ w ∧ w ≤ ymax := by
  match xs, ys, h with
  | x :: xs', y :: ys', h =>
    simp only [info, Option.some.injEq, Prod.mk.injEq] at h
    obtain ⟨h1, h2, h3, h4⟩ := h
    subst h1; subst h2; subst h3; subst h4
    refine ⟨?_, ?_, ?_, ?_⟩
    · exact le_trans (floorMult_le sx _ hsx) (listMin_le_of_mem x xs' v hv)
    · exact le_trans (le_listMax_of_mem x xs' v hv) (le_ceilMult sx _ hsx)
    · exact le_trans (floorMult_le sy _ hsy) (listMin_le_of_mem y ys' w hw)
    · exact le_trans (le_listMax_of_mem y ys' w hw) (le_ceilMult sy _ hsy)

/-- Witness for C10: the concrete data point `(32.1, 21.5)` of the sample
lies inside the computed region `(30, 60, 12, 22)`. -/
theorem plotted_points_inside_region_witness :
    (30 : ℚ) ≤ 32.1 ∧ (32.1 : ℚ) ≤ 60 ∧ (12 : ℚ) ≤ 21.5 ∧ (21.5 : ℚ) ≤ 22 :=
  plotted_points_inside_region [(32.1 : ℚ), 59.6] [(13.1 : ℚ), 21.5] 3 2
    32.1 21.5 30 60 12 22 (by norm_num) (by norm_num)
    (by simp) (by simp) info_penguin_sample

lemma nSlices_0_3_1 : nSlices 0 3 1 = 3 := by
  unfold nSlices
  have h : ⌈((3 : ℚ) - 0) / 1⌉ = 3 := by norm_num
  rw [h]
  rfl

/-- C2: for a valid numeric series `(start, stop, step)` the colormap builder
produces exactly `⌈(stop - start) / step⌉` discrete color bins, indexed
`0, 1, …`; the bin count `n` is characterized by
`start + (n-1)·step < stop ≤ start + n·step`. -/
theorem makecpt_bin_count (cmap : String) (start stop step : ℚ)
    (hlt : start < stop) (hstep : 0 < step) :
    ∃ slices, makecpt cmap start stop step = Except.ok slices ∧
      slices.length = nSlices start stop step ∧
      slices.map CptSlice.colorIndex = List.range (nSlices start stop step) ∧
      stop ≤ start + (slices.length : ℚ) * step ∧
      start + ((slices.length : ℚ) - 1) * step < stop := by
  have hcond : ¬(stop ≤ start ∨ step ≤ 0) := by
    push_neg
    exact ⟨hlt, hstep⟩
  have hq : 0 < (stop - start) / step := div_pos (by linarith) hstep
  have hceil : 0 < ⌈(stop - start) / step⌉ := Int.ceil_pos.mpr hq
  have hnz : ((nSlices start stop step : ℕ) : ℤ) = ⌈(stop - start) / step⌉ := by
    unfold nSlices
    exact Int.toNat_of_nonneg hceil.le
  have hnq : ((nSlices start stop step : ℕ) : ℚ) =
      ((⌈(stop - start) / step⌉ : ℤ) : ℚ) := by
    exact_mod_cast hnz
  have hlen : ((List.range (nSlices start stop step)).map fun i : ℕ =>
      (⟨start + (i : ℚ) * step, start + ((i : ℚ) + 1) * step, i,
        paletteColor cmap (nSlices start stop step) i⟩ : CptSlice)).length =
      nSlices start stop step := by
    rw [List.length_map, List.length_range]
  refine ⟨_, ?_, hlen, ?_, ?_, ?_⟩
  · unfold makecpt
    rw [if_neg hcond]
  · rw [List.map_map]
    have hco : (CptSlice.colorIndex ∘ fun i : ℕ =>
        (⟨start + (i : ℚ) * step, start + ((i : ℚ) + 1) * step, i,
          paletteColor cmap (nSlices start stop step) i⟩ : CptSlice)) = id :=
      rfl
    rw [hco, List.map_id]
  · rw [hlen, hnq]
    have h1 : (stop - start) / step ≤ ((⌈(stop - start) / step⌉ : ℤ) : ℚ) :=
      Int.le_ceil _
    rw [div_le_iff₀ hstep] at h1
    linarith
  · rw [hlen, hnq]
    have h3 : ((⌈(stop - start) / step⌉ : ℤ) : ℚ) - 1 < (stop - start) / step := by
      have h2 := Int.ceil_lt_add_one ((stop - start) / step)
      linarith
    have h4 : (((⌈(stop - start) / step⌉ : ℤ) : ℚ) - 1) * step <
        (stop - start) / step * step := mul_lt_mul_of_pos_right h3 hstep
    rw [div_mul_cancel₀ _ (ne_of_gt hstep)] at h4
    linarith

/-- Witness for C2: the series `(0, 3, 1)` of the script yields exactly
`⌈(3 - 0)/1⌉ = 3` discrete bins, indexed `0, 1, 2`. -/
theorem makecpt_bin_count_witness :
    (∃ slices, makecpt "inferno" 0 3 1 = Except.ok slices ∧
      slices.length = nSlices 0 3 1 ∧
      slices.map CptSlice.colorIndex = List.range (nSlices 0 3 1) ∧
      (3 : ℚ) ≤ 0 + (slices.length : ℚ) * 1 ∧
      (0 : ℚ) + ((slices.length : ℚ) - 1) * 1 < 3) ∧
    nSlices 0 3 1 = 3 ∧ List.range 3 = [0, 1, 2] :=
  ⟨makecpt_bin_count "inferno" 0 3 1 (by norm_num) (by norm_num),
    nSlices_0_3_1, by decide⟩

/-- C6: the colormap builder fails whenever the supplied series has
`stop ≤ start` or `step ≤ 0`, and in that case returns no colormap. -/
theorem makecpt_invalid_series_fails (cmap : String) (start stop step : ℚ)
    (h : stop ≤ start ∨ step ≤ 0) :
    ∃ msg, makecpt cmap start stop step = Except.error msg ∧
      ∀ slices, makecpt cmap start stop step ≠ Except.ok slices := by
  refine ⟨"makecpt: series stop must exceed start and step must be positive",
    ?_, ?_⟩
  · unfold makecpt
    rw [if_pos h]
  · intro slices hok
    unfold makecpt at hok
    rw [if_pos h] at hok
    exact Except.noConfusion hok

/-- Witness for C6: the degenerate series `(0, 0, 1)` (stop ≤ start) is
rejected by the colormap builder. -/
theorem makecpt_invalid_series_fails_witness :
    ∃ msg, makecpt "inferno" 0 0 1 = Except.error msg ∧
      ∀ slices, makecpt "inferno" 0 0 1 ≠ Except.ok slices :=
  makecpt_invalid_series_fails "inferno" 0 0 1 (Or.inl le_rfl)

/-- C3: if the parallel plot inputs `x`, `y`, `sizes`, `color` do not all
have the same length, the plot call fails with a shape-mismatch error and no
symbols are drawn. -/
theorem plot_length_mismatch_fails (x y sizes color : List ℚ)
    (h : ¬(x.length = y.length ∧ x.length = sizes.length ∧
      x.length = color.length)) :
    plot x y sizes color =
      Except.error "plot: x, y, sizes and color must have the same length" ∧
    ∀ symbols, plot x y sizes color ≠ Except.ok symbols := by
  constructor
  · unfold plot
    rw [if_neg h]
  · intro symbols hok
    unfold plot at hok
    rw [if_neg h] at hok
    exact Except.noConfusion hok

/-- Witness for C3: `x` of length 5 with `sizes` of length 4 fails with the
shape-mismatch error and draws nothing. -/
theorem plot_length_mismatch_fails_witness :
    plot [1, 2, 3, 4, 5] [1, 2, 3, 4, 5] [1, 2, 3, 4] [0, 0, 0, 0, 0] =
      Except.error "plot: x, y, sizes and color must have the same length" ∧
    ∀ symbols,
      plot [1, 2, 3, 4, 5] [1, 2, 3, 4, 5] [1, 2, 3, 4] [0, 0, 0, 0, 0] ≠
        Except.ok symbols :=
  plot_length_mismatch_fails [1, 2, 3, 4, 5] [1, 2, 3, 4, 5] [1, 2, 3, 4]
    [0, 0, 0, 0, 0] (by simp)

/-- C7: finalizing a figure session that has accumulated zero drawing
operations fails with the empty-canvas error and produces no output
artifact. -/
theorem show_empty_session_fails (f : Figure) (h : f.ops = []) :
    ∃ msg, Figure.show' f = Except.error msg ∧
      ∀ a, Figure.show' f ≠ Except.ok a := by
  refine ⟨"show: cannot finalize an empty figure session", ?_, ?_⟩
  · unfold Figure.show'
    rw [h]
    rfl
  · intro a hok
    unfold Figure.show' at hok
    rw [h] at hok
    exact Except.noConfusion hok

/-- Witness for C7: showing a freshly created figure (empty operation log)
fails and yields no artifact. -/
theorem show_empty_session_fails_witness :
    ∃ msg, Figure.show' ⟨[]⟩ = Except.error msg ∧
      ∀ a, Figure.show' ⟨[]⟩ ≠ Except.ok a :=
  show_empty_session_fails ⟨[]⟩ rfl

lemma sessionRun_append (tr : List SessionEvent) (e : SessionEvent) :
    sessionRun (tr ++ [e]) =
      (sessionRun tr).bind fun st => sessionStep st e := by
  unfold sessionRun
  rw [List.foldl_append]
  rfl

/-- C8: in every execution of the session state machine, no drawing
operation is accepted once the session is finalized: a trace that reaches
`finalized` rejects a subsequent `draw`, and no event moves the session from
`finalized` back to `accumulating`. -/
theorem no_draw_after_finalized (tr : List SessionEvent)
    (h : sessionRun tr = some SessionState.finalized) :
    sessionRun (tr ++ [SessionEvent.draw]) = none ∧
    ∀ e s', sessionStep SessionState.finalized e = some s' →
      s' ≠ SessionState.accumulating := by
  constructor
  · rw [sessionRun_append, h]
    rfl
  · intro e s' he hacc
    rw [hacc] at he
    cases e <;> simp [sessionStep] at he

/-- Witness for C8: the trace draw-then-finalize reaches `finalized`, and
appending another draw is rejected. -/
theorem no_draw_after_finalized_witness :
    sessionRun ([SessionEvent.draw, SessionEvent.finalize] ++
      [SessionEvent.draw]) = none ∧
    ∀ e s', sessionStep SessionState.finalized e = some s' →
      s' ≠ SessionState.accumulating :=
  no_draw_after_finalized [SessionEvent.draw, SessionEvent.finalize] rfl

/-- C4: the codes of a categorical column are a dense integer range
`[0, N)` where `N` is the number of distinct categories (every code is below
`N` and every integer below `N` occurs as a code), and the colormap built
from the series `(0, N, 1)` has integer index domain exactly `[0, N)`, so
the two domains coincide at plot time. -/
theorem colormap_domain_matches_code_domain (col : List String) (N : ℕ)
    (hN : (categories col).length = N) (hpos : 0 < N) :
    (∀ c ∈ codes col, c < N) ∧
    (∀ k, k < N → k ∈ codes col) ∧
    (∃ slices, makecpt "inferno" 0 (N : ℚ) 1 = Except.ok slices ∧
      slices.map CptSlice.colorIndex = List.range N) := by
  refine ⟨?_, ?_, ?_⟩
  · intro c hc
    rw [codes] at hc
    obtain ⟨v, hv, rfl⟩ := List.mem_map.mp hc
    have hvcat : v ∈ categories col := by
      rw [categories]
      exact List.mem_dedup.mpr hv
    rw [← hN]
    exact List.indexOf_lt_length.mpr hvcat
  · intro k hk
    have hk' : k < (categories col).length := by rw [hN]; exact hk
    have hvmem : (categories col).get ⟨k, hk'⟩ ∈ categories col :=
      List.get_mem (categories col) k hk'
    have hvcol : (categories col).get ⟨k, hk'⟩ ∈ col :=
      List.mem_dedup.mp hvmem
    have hidx : (categories col).indexOf ((categories col).get ⟨k, hk'⟩) = k :=
      List.get_indexOf (List.nodup_dedup col) ⟨k, hk'⟩
    rw [codes]
    exact List.mem_map.mpr ⟨(categories col).get ⟨k, hk'⟩, hvcol, hidx⟩
  · have hcond : ¬((N : ℚ) ≤ 0 ∨ (1 : ℚ) ≤ 0) := by
      push_neg
      constructor
      · exact_mod_cast hpos
      · norm_num
    have hns : nSlices 0 (N : ℚ) 1 = N := by
      unfold nSlices
      rw [show ((N : ℚ) - 0) / 1 = (N : ℚ) by ring]
      rw [Int.ceil_natCast]
      exact Int.toNat_natCast N
    refine ⟨(List.range (nSlices 0 (N : ℚ) 1)).map fun i : ℕ =>
        ⟨0 + (i : ℚ) * 1, 0 + ((i : ℚ) + 1) * 1, i,
          paletteColor "inferno" (nSlices 0 (N : ℚ) 1) i⟩, ?_, ?_⟩
    · unfold makecpt
      rw [if_neg hcond]
    · rw [List.map_map]
      have hco : (CptSlice.colorIndex ∘ fun i : ℕ =>
          (⟨0 + (i : ℚ) * 1, 0 + ((i : ℚ) + 1) * 1, i,
            paletteColor "inferno" (nSlices 0 (N : ℚ) 1) i⟩ : CptSlice)) =
          id := rfl
      rw [hco, List.map_id, hns]

/-- Witness for C4: for the three penguin species the codes are exactly
`{0, 1, 2}` and the colormap from series `(0, 3, 1)` covers the same index
range. -/
theorem colormap_domain_matches_code_domain_witness :
    (∀ c ∈ codes ["Adelie", "Adelie", "Gentoo", "Chinstrap"], c < 3) ∧
    (∀ k, k < 3 → k ∈ codes ["Adelie", "Adelie", "Gentoo", "Chinstrap"]) ∧
    (∃ slices, makecpt "inferno" 0 ((3 : ℕ) : ℚ) 1 = Except.ok slices ∧
      slices.map CptSlice.colorIndex = List.range 3) :=
  colormap_domain_matches_code_domain
    ["Adelie", "Adelie", "Gentoo", "Chinstrap"] 3 (by rfl) (by norm_num)

lemma makecpt_inferno_0_3_1 :
    makecpt "inferno" 0 3 1 = Except.ok
      [⟨0, 1, 0, ⟨0, 0, 4⟩⟩,
       ⟨1, 2, 1, ⟨84, 85, 172 / 3⟩⟩,
       ⟨2, 3, 2, ⟨168, 170, 332 / 3⟩⟩] := by
  unfold makecpt
  rw [if_neg (by norm_num)]
  rw [nSlices_0_3_1]
  norm_num [List.range_succ, paletteColor, paletteAnchors]

/-- C9: the colormap built from the range `(0, 3, 1)` with the inferno
palette assigns the codes `0`, `1`, `2` three pairwise distinct colors, and
the assignment is deterministic: the colors are fixed explicit values,
functions only of the palette and the codes, so repeated runs with the same
palette and codes produce the same colors. -/
theorem categorical_colors_distinct_deterministic :
    ∃ slices, makecpt "inferno" 0 3 1 = Except.ok slices ∧
      colorForCode slices 0 = some ⟨0, 0, 4⟩ ∧
      colorForCode slices 1 = some ⟨84, 85, 172 / 3⟩ ∧
      colorForCode slices 2 = some ⟨168, 170, 332 / 3⟩ ∧
      (⟨0, 0, 4⟩ : RGB) ≠ ⟨84, 85, 172 / 3⟩ ∧
      (⟨0, 0, 4⟩ : RGB) ≠ ⟨168, 170, 332 / 3⟩ ∧
      (⟨84, 85, 172 / 3⟩ : RGB) ≠ ⟨168, 170, 332 / 3⟩ := by
  refine ⟨_, makecpt_inferno_0_3_1, ?_, ?_, ?_, ?_, ?_, ?_⟩
  · norm_num [colorForCode]
  · norm_num [colorForCode]
  · norm_num [colorForCode]
  · norm_num [RGB.mk.injEq]
  · norm_num [RGB.mk.injEq]
  · norm_num [RGB.mk.injEq]
